import Mathlib

/-!
Shallow embedding of the `Mapper` subsystem of the norlab_icp_mapper
repository (src/Mapper.cpp, src/Mapper.h).

Scalars are embedded as rationals. Comparisons between Euclidean norms
that the source performs on floats are embedded as exact comparisons of
squared norms (equivalent over the reals for nonnegative bounds); the
values of norms that enter further arithmetic (in the dynamic-probability
update) are supplied by an abstract norm function, because a square root
is a math-library call outside the repository. External collaborators
(the configurable filter chains, the ICP operator, the nearest-neighbour
angular search) are fields of a `Collab` record, as the spec declares
them to be boundary contracts. The radius filter
(`DistanceLimitDataPointsFilter`) and cloud concatenation live in the
point-cloud library, not in src/, and are modelled from the spec where
noted. Locks are elided: the embedding is the sequential semantics, with
a spawned map build executing at its spawn point (its only effect is
`setMap`); the dispatch mode (sync/async) is recorded as an observation.
C++ exceptions are embedded by threading the state explicitly: each
fallible operation returns the state as of the throw point together with
an optional error message.
-/

namespace NorlabMapper

/-- Euclidean vector of dimension `d` with rational coordinates. -/
abbrev Vec (d : ℕ) := Fin d → ℚ

/-- Squared Euclidean norm (the source compares `.norm()` values; we compare
their squares, which is equivalent over the reals for nonnegative bounds). -/
def sqNorm {d : ℕ} (v : Vec d) : ℚ := ∑ i, v i ^ 2

/-- Homogeneous rigid transform, stored as rotation block plus translation
column (the (D+1)×(D+1) homogeneous matrix of the source, with the last row
implicit). -/
structure HT (d : ℕ) where
  rot : Matrix (Fin d) (Fin d) ℚ
  trans : Vec d
deriving DecidableEq

/-- Apply a homogeneous transform to a Euclidean point. -/
def HT.apply {d : ℕ} (T : HT d) (p : Vec d) : Vec d := T.rot.mulVec p + T.trans

/-- Composition of homogeneous transforms (matrix product of the homogeneous
matrices). -/
def HT.comp {d : ℕ} (A B : HT d) : HT d :=
  ⟨A.rot * B.rot, A.rot.mulVec B.trans + A.trans⟩

/-- Inverse of a rigid homogeneous transform, as the source's `.inverse()`
evaluates on a rigid transform: transposed rotation and back-rotated negated
translation. -/
def HT.inv {d : ℕ} (A : HT d) : HT d :=
  ⟨A.rot.transpose, -(A.rot.transpose.mulVec A.trans)⟩

/-- Identity transform. -/
def HT.ident (d : ℕ) : HT d := ⟨1, 0⟩

/-- A transform is rigid when its rotation block is orthogonal. -/
def HT.IsRigid {d : ℕ} (A : HT d) : Prop := A.rot.transpose * A.rot = 1

/-- Point cloud: an ordered list of feature columns (Euclidean coordinates;
the homogeneous row is implicit) together with named descriptors, one value
column per point per descriptor. -/
structure DataPoints (d : ℕ) where
  features : List (Vec d)
  descriptors : List (String × List (List ℚ))
deriving DecidableEq

/-- Keep exactly the entries of a list whose mask bit is `true` (the
source's `setColFrom` / `conservativeResize` column-compaction loops). -/
def applyMask {α : Type} : List Bool → List α → List α
  | true :: bs, x :: xs => x :: applyMask bs xs
  | false :: bs, _ :: xs => applyMask bs xs
  | _, _ => []

/-- Apply a column mask to a cloud: features and every descriptor are
compacted with the same mask. -/
def maskCols {d : ℕ} (mask : List Bool) (c : DataPoints d) : DataPoints d :=
  ⟨applyMask mask c.features,
   c.descriptors.map (fun nv => (nv.1, applyMask mask nv.2))⟩

/-- Modelled from the spec: `Transformation::compute` applies the rigid
transform to the features (spec §3, §6); the spec does not constrain
descriptor handling, so descriptors are carried unchanged. -/
def transformCloud {d : ℕ} (T : HT d) (c : DataPoints d) : DataPoints d :=
  ⟨c.features.map T.apply, c.descriptors⟩

/-- `DataPoints::descriptorExists`: whether the cloud carries a descriptor
with the given name. -/
def descriptorExists {d : ℕ} (name : String) (c : DataPoints d) : Bool :=
  (c.descriptors.lookup name).isSome

/-- `DataPoints::addDescriptor`: add a descriptor with the given name,
replacing a pre-existing one of the same name. -/
def addDescriptor {d : ℕ} (name : String) (vals : List (List ℚ)) (c : DataPoints d) :
    DataPoints d :=
  ⟨c.features, (name, vals) :: c.descriptors.filter (fun nv => nv.1 ≠ name)⟩

/-- Overwrite the value columns of a named descriptor (the write-back of a
`getDescriptorViewByName` view). -/
def setDescriptor {d : ℕ} (name : String) (vals : List (List ℚ)) (c : DataPoints d) :
    DataPoints d :=
  ⟨c.features, c.descriptors.map (fun nv => if nv.1 = name then (nv.1, vals) else nv)⟩

/-- Modelled from the spec (§3): cloud concatenation appends columns;
descriptors present in both clouds are concatenated column-wise, others are
dropped, as the point-cloud library does for mismatched descriptor sets. -/
def concatenateDP {d : ℕ} (a b : DataPoints d) : DataPoints d :=
  ⟨a.features ++ b.features,
   a.descriptors.filterMap
     (fun nv => (b.descriptors.lookup nv.1).map (fun vb => (nv.1, nv.2 ++ vb)))⟩

/-- Modelled from the spec: the radius filter
(`DistanceLimitDataPointsFilter` with `dim = -1`, `dist = sensorMaxRange`,
`removeInside = 0`, a point-cloud-library collaborator) drops the points
farther than `sensorMaxRange` from the origin; kept iff squared norm is at
most the squared range. -/
def radiusFilterCloud {d : ℕ} (range : ℚ) (c : DataPoints d) : DataPoints d :=
  maskCols (c.features.map (fun f => decide (sqNorm f ≤ range ^ 2))) c

/-- Squared Euclidean distance between two points. -/
def sqDist {d : ℕ} (u v : Vec d) : ℚ := sqNorm (u - v)

/-- Squared distance from `q` to its exact nearest neighbour among `refPts`
(`none` when the reference is empty, where the k-NN library reports an
infinite distance). -/
def nnSqDist {d : ℕ} (refPts : List (Vec d)) (q : Vec d) : Option ℚ :=
  refPts.foldl
    (fun acc p =>
      match acc with
      | none => some (sqDist q p)
      | some m => some (min m (sqDist q p)))
    none

/-- The novelty-filter retention test: keep the point iff its squared
nearest-neighbour distance is at least `minD²` (an infinite distance — empty
reference — always passes, as in the source's `dists(i) >= pow(...)` with
`dists(i) = inf`). -/
def nnKeep {d : ℕ} (minD : ℚ) (refPts : List (Vec d)) (q : Vec d) : Bool :=
  match nnSqDist refPts q with
  | none => true
  | some dmin => decide (minD ^ 2 ≤ dmin)

/-- The construction parameters of `Mapper` (Mapper.h fields; the four
configuration-file paths select the collaborator filter chains and are
subsumed by `Collab`). -/
structure Params where
  mapUpdateCondition : String
  mapUpdateOverlap : ℚ
  mapUpdateDelay : ℚ
  mapUpdateDistance : ℚ
  minDistNewPoint : ℚ
  sensorMaxRange : ℚ
  priorDynamic : ℚ
  thresholdDynamic : ℚ
  beamHalfAngle : ℚ
  epsilonA : ℚ
  epsilonD : ℚ
  alpha : ℚ
  beta : ℚ
  is3D : Bool
  isOnline : Bool
  computeProbDynamic : Bool
  isMapping : Bool
deriving DecidableEq

/-- External collaborators of the core (spec §6 boundary contracts): the
three configurable filter chains, the ICP operator (returning the correction
transform and the error-minimizer overlap, or an error), the math-library
Euclidean norm and square root as uninterpreted functions, and the angular
nearest-neighbour query (nearest input beam in spherical coordinates within
`2·beamHalfAngle`, with its squared angular distance, or `none` when no beam
is within the cutoff). -/
structure Collab (d : ℕ) where
  inputFilters : DataPoints d → DataPoints d
  inputFiltersWorld : DataPoints d → DataPoints d
  mapPostFilters : DataPoints d → DataPoints d
  icp : DataPoints d → DataPoints d → Except String (HT d × ℚ)
  norm : Vec d → ℚ
  sqrt : ℚ → ℚ
  angularMatch : DataPoints d → DataPoints d → Nat → Option (Nat × ℚ)

/-- The mutable state of a `Mapper` (Mapper.h data members). The
`mapBuilderBusy` flag stands for `mapBuilderFuture` being valid and not yet
ready; in the sequential embedding a spawned build completes at its spawn
point, so the flag stays `false`. -/
structure MState (d : ℕ) where
  map : DataPoints d
  sensorPose : HT d
  icpRef : DataPoints d
  newMapAvailable : Bool
  isMapEmpty : Bool
  mapBuilderBusy : Bool
  lastTimeMapWasUpdated : ℚ
  lastSensorPoseWhereMapWasUpdated : HT d
deriving DecidableEq

/-- Whether a map build was dispatched on the caller thread (`buildMap`
called directly) or spawned through `std::async`. -/
inductive BuildDispatch
  | sync
  | async
deriving DecidableEq

/-- Observable outcome of one `processInput` call: the mapper state, the
caller-owned input buffer after the in-place filter steps, the dispatch mode
of the map build when one was started, and the propagated error when the
call threw. -/
structure PIOut (d : ℕ) where
  state : MState d
  buffer : DataPoints d
  dispatch : Option BuildDispatch
  error : Option String
deriving DecidableEq

/-- State right after construction: empty map, identity sensor pose, no new
map, empty ICP reference. (`lastSensorPoseWhereMapWasUpdated` is
uninitialized in the source; the identity stands for its arbitrary initial
value.) -/
def initState (d : ℕ) : MState d :=
  { map := ⟨[], []⟩
    sensorPose := HT.ident d
    icpRef := ⟨[], []⟩
    newMapAvailable := false
    isMapEmpty := true
    mapBuilderBusy := false
    lastTimeMapWasUpdated := 0
    lastSensorPoseWhereMapWasUpdated := HT.ident d }

/-- The ε constant of the dynamic-probability update
(`const float eps = 0.0001`, Mapper.cpp line 195). -/
def dynEps : ℚ := 1 / 10000

/-- The evidence-for-dynamic weight `w_d2` (Mapper.cpp lines 245–257):
initialized to 1, set to ε when `delta < epsilonD` or `‖m‖ > ‖r‖`, otherwise
set to `ε + (1−ε)·offset/d_max` when `offset < d_max`. -/
def wD2 (pr : Params) (delta normR normM : ℚ) : ℚ :=
  if delta < pr.epsilonD ∨ normM > normR then dynEps
  else if delta - pr.epsilonD < pr.epsilonA * normR then
    dynEps + (1 - dynEps) * (delta - pr.epsilonD) / (pr.epsilonA * normR)
  else 1

/-- The evidence-for-static weight `w_p2` (Mapper.cpp lines 259–270); the
`normM` argument is kept for signature symmetry with `wD2` and unused, as
the source's `w_p2` branches only on `delta` and `offset`. -/
def wP2 (pr : Params) (delta normR _normM : ℚ) : ℚ :=
  if delta < pr.epsilonD then 1
  else if delta - pr.epsilonD < pr.epsilonA * normR then
    dynEps + (1 - dynEps) * (1 - (delta - pr.epsilonD) / (pr.epsilonA * normR))
  else dynEps

/-- The per-matched-pair probability update (Mapper.cpp lines 245–293),
taking the scalars the source computes for the pair: `delta = ‖r − m‖`,
`normR = ‖r‖`, `normM = ‖m‖`, the view-ray weight `w_v` and the
angular-proximity weight `w_d1`. Outside the occlusion gate
`‖r‖ + εD + d_max ≥ ‖m‖` nothing is written back, embedded as returning
the previous probability unchanged. -/
def dynMatchUpdate (pr : Params) (delta normR normM wV wD1 lastDyn : ℚ) : ℚ :=
  if normR + pr.epsilonD + pr.epsilonA * normR ≥ normM then
    let c1 := 1 - wV * wD1
    let c2 := wV * wD1
    let probDynamic :=
      if lastDyn < pr.thresholdDynamic then
        c1 * lastDyn +
          c2 * wD2 pr delta normR normM *
            ((1 - pr.alpha) * (1 - lastDyn) + pr.beta * lastDyn)
      else 1 - dynEps
    let probStatic :=
      if lastDyn < pr.thresholdDynamic then
        c1 * (1 - lastDyn) +
          c2 * wP2 pr delta normR normM *
            (pr.alpha * (1 - lastDyn) + (1 - pr.beta) * lastDyn)
      else dynEps
    probDynamic / (probDynamic + probStatic)
  else lastDyn

/-- Dot product of a descriptor column (a map normal) with a point. -/
def dotLV {d : ℕ} (n : List ℚ) (v : Vec d) : ℚ := ∑ i : Fin d, n.getD i.val 0 * v i

/-- `Mapper::computeProbabilityOfPointsBeingDynamic` (Mapper.cpp lines
191–296): crop the map to sensor range in the sensor frame (strict `<` as
in line 208), keep the original index of each kept column (`globalId`),
query the nearest input beam for each cropped point through the external
angular k-NN, and update `probabilityDynamic` at the original index for
each matched and gated pair. Throws (returns an error and the unmutated
cloud) when the map lacks the `probabilityDynamic` descriptor or the
cropped map lacks `normals`, as `getDescriptorViewByName` does. -/
def computeProbabilityOfPointsBeingDynamic {d : ℕ} (pr : Params) (co : Collab d)
    (currentInput currentMap : DataPoints d) (currentSensorPose : HT d) :
    DataPoints d × Option String :=
  let currentInputInSensorFrame := transformCloud currentSensorPose.inv currentInput
  let mapInSensorFrame := transformCloud currentSensorPose.inv currentMap
  let cutMask := mapInSensorFrame.features.map
    (fun f => decide (sqNorm f < pr.sensorMaxRange ^ 2))
  let cutMapInSensorFrame := maskCols cutMask mapInSensorFrame
  let globalId := applyMask cutMask (List.range currentMap.features.length)
  match currentMap.descriptors.lookup "probabilityDynamic",
        cutMapInSensorFrame.descriptors.lookup "normals" with
  | some probVals, some normalVals =>
    let newProbVals :=
      (List.range cutMapInSensorFrame.features.length).foldl
        (fun acc i =>
          match co.angularMatch currentInputInSensorFrame cutMapInSensorFrame i with
          | none => acc
          | some rdMatch =>
            let readingPoint := currentInputInSensorFrame.features.getD rdMatch.1 0
            let mapPoint := cutMapInSensorFrame.features.getD i 0
            let delta := co.norm (readingPoint - mapPoint)
            let normR := co.norm readingPoint
            let normM := co.norm mapPoint
            let mapPointNormal := normalVals.getD i []
            let wV := dynEps + (1 - dynEps) * |dotLV mapPointNormal mapPoint / normM|
            let wD1 := dynEps +
              (1 - dynEps) * (1 - co.sqrt rdMatch.2 / (2 * pr.beamHalfAngle))
            let gid := globalId.getD i 0
            let col := acc.getD gid []
            acc.set gid
              (col.set 0 (dynMatchUpdate pr delta normR normM wV wD1 (col.headD 0))))
        probVals
    (setDescriptor "probabilityDynamic" newProbVals currentMap, none)
  | _, _ => (currentMap, some "InvalidField")

/-- `Mapper::retrievePointsFurtherThanMinDistNewPoint` (Mapper.cpp lines
298–325): crop the map to sensor range through the sensor-frame round trip,
then keep each input column iff its squared distance to the nearest cropped
map point is at least `minDistNewPoint²`. -/
def retrievePointsFurtherThanMinDistNewPoint {d : ℕ} (pr : Params)
    (currentInput currentMap : DataPoints d) (currentSensorPose : HT d) :
    DataPoints d :=
  let cutMapInSensorFrame :=
    radiusFilterCloud pr.sensorMaxRange (transformCloud currentSensorPose.inv currentMap)
  let cutMap := transformCloud currentSensorPose cutMapInSensorFrame
  maskCols (currentInput.features.map (nnKeep pr.minDistNewPoint cutMap.features))
    currentInput

/-- `Mapper::setMap` (Mapper.cpp lines 350–371): throw before any mutation
when `computeProbDynamic` is set and the new map lacks `normals`; otherwise
set the ICP reference to the new map cropped to `sensorMaxRange` of the new
sensor pose, publish the map, raise `newMapAvailable` and recompute
`isMapEmpty`. -/
def setMap {d : ℕ} (pr : Params) (s : MState d) (newMap : DataPoints d)
    (newSensorPose : HT d) : MState d × Option String :=
  if pr.computeProbDynamic && !descriptorExists "normals" newMap then
    (s, some "compute prob dynamic is set to true, but field normals does not exist for map points.")
  else
    let cutMapInSensorFrame :=
      radiusFilterCloud pr.sensorMaxRange (transformCloud newSensorPose.inv newMap)
    let cutMap := transformCloud newSensorPose cutMapInSensorFrame
    ({ s with
        icpRef := cutMap
        map := newMap
        newMapAvailable := true
        isMapEmpty := newMap.features.length == 0 }, none)

/-- Tail of `Mapper::buildMap` (Mapper.cpp lines 184–188), reached by both
the first-build and the merge paths: express the built map in the sensor
frame, apply the map-post-filter chain, transform back, commit via
`setMap`. -/
def buildMapCommit {d : ℕ} (pr : Params) (co : Collab d) (s : MState d)
    (currentMap2 : DataPoints d) (currentSensorPose : HT d) :
    MState d × Option String :=
  let mapInSensorFrame :=
    co.mapPostFilters (transformCloud currentSensorPose.inv currentMap2)
  let currentMap3 := transformCloud currentSensorPose mapInSensorFrame
  setMap pr s currentMap3 currentSensorPose

/-- `Mapper::buildMap` (Mapper.cpp lines 162–189), on by-value snapshots:
optionally seed the `probabilityDynamic` descriptor at `priorDynamic`; on
the first build the input becomes the map, otherwise run the dynamic update
and concatenate the novel points; then post-filter and commit
(`buildMapCommit`). All throws happen before any state mutation, so an
error leaves the state unchanged. -/
def buildMap {d : ℕ} (pr : Params) (co : Collab d) (s : MState d)
    (currentInput currentMap : DataPoints d) (currentSensorPose : HT d) :
    MState d × Option String :=
  let currentInput1 :=
    if pr.computeProbDynamic then
      addDescriptor "probabilityDynamic"
        (List.replicate currentInput.features.length [pr.priorDynamic]) currentInput
    else currentInput
  if s.isMapEmpty then buildMapCommit pr co s currentInput1 currentSensorPose
  else
    let dynStep :=
      if pr.computeProbDynamic then
        computeProbabilityOfPointsBeingDynamic pr co currentInput1 currentMap
          currentSensorPose
      else (currentMap, none)
    match dynStep.2 with
    | some e => (s, some e)
    | none =>
      buildMapCommit pr co s
        (concatenateDP dynStep.1
          (retrievePointsFurtherThanMinDistNewPoint pr currentInput1 dynStep.1
            currentSensorPose))
        currentSensorPose

/-- `Mapper::shouldUpdateMap` (Mapper.cpp lines 113–145): false when not
mapping; false when online and a build is in flight; otherwise dispatch on
the update condition. The source wraps the distance norm in `std::abs` (a
no-op) and compares norms; the embedding compares squares, equivalent for
the nonnegative thresholds the spec requires. -/
def shouldUpdateMap {d : ℕ} (pr : Params) (s : MState d) (currentTime : ℚ)
    (currentSensorPose : HT d) (currentOverlap : ℚ) : Bool :=
  if !pr.isMapping then false
  else if pr.isOnline && s.mapBuilderBusy then false
  else if pr.mapUpdateCondition == "overlap" then
    decide (currentOverlap < pr.mapUpdateOverlap)
  else if pr.mapUpdateCondition == "delay" then
    decide (currentTime - s.lastTimeMapWasUpdated > pr.mapUpdateDelay)
  else
    decide (sqNorm (currentSensorPose.trans - s.lastSensorPoseWhereMapWasUpdated.trans)
      > pr.mapUpdateDistance ^ 2)

/-- `Mapper::updateMap` (Mapper.cpp lines 147–160): record the policy
bookkeeping before dispatching, then run the build on snapshots — through
`std::async` when online and the map is non-empty (an error inside the
worker terminates only that build and is not propagated), synchronously
otherwise. -/
def updateMap {d : ℕ} (pr : Params) (co : Collab d) (s : MState d)
    (currentInput : DataPoints d) (timeStamp : ℚ) :
    MState d × BuildDispatch × Option String :=
  let s1 := { s with
    lastTimeMapWasUpdated := timeStamp
    lastSensorPoseWhereMapWasUpdated := s.sensorPose }
  if pr.isOnline && !s1.isMapEmpty then
    let r := buildMap pr co s1 currentInput s1.map s1.sensorPose
    (r.1, BuildDispatch.async, none)
  else
    let r := buildMap pr co s1 currentInput s1.map s1.sensorPose
    (r.1, BuildDispatch.sync, r.2)

/-- The cloud on which `processInput` invokes the ICP operator
(Mapper.cpp lines 86–87, 101): the caller's sensor-frame cloud transformed
by the pose guess, with the world-frame input filter chain applied. It is
computed from the buffer as received, before the radius filter and the
sensor-frame input filters run. -/
def icpInputCloud {d : ℕ} (co : Collab d) (inputInSensorFrame : DataPoints d)
    (estimatedSensorPose : HT d) : DataPoints d :=
  co.inputFiltersWorld (transformCloud estimatedSensorPose inputInSensorFrame)

/-- `Mapper::processInput` (Mapper.cpp lines 82–111). -/
def processInput {d : ℕ} (pr : Params) (co : Collab d) (s : MState d)
    (inputInSensorFrame : DataPoints d) (estimatedSensorPose : HT d)
    (timeStamp : ℚ) : PIOut d :=
  let inputInMapFrame := icpInputCloud co inputInSensorFrame estimatedSensorPose
  let buf := co.inputFilters (radiusFilterCloud pr.sensorMaxRange inputInSensorFrame)
  if s.isMapEmpty then
    let s1 := { s with sensorPose := estimatedSensorPose }
    let r := updateMap pr co s1 inputInMapFrame timeStamp
    ⟨r.1, buf, some r.2.1, r.2.2⟩
  else
    match co.icp s.icpRef inputInMapFrame with
    | Except.error e => ⟨s, buf, none, some e⟩
    | Except.ok icpRes =>
      let s1 := { s with sensorPose := icpRes.1.comp estimatedSensorPose }
      if shouldUpdateMap pr s1 timeStamp s1.sensorPose icpRes.2 then
        let r := updateMap pr co s1 (transformCloud icpRes.1 inputInMapFrame) timeStamp
        ⟨r.1, buf, some r.2.1, r.2.2⟩
      else ⟨s1, buf, none, none⟩

/-- `Mapper::getNewMap` (Mapper.cpp lines 373–387): when a new map is
available, copy it into the caller's cloud, clear the flag and return true;
otherwise return false. Result: (state, caller's output cloud, returned
boolean). -/
def getNewMap {d : ℕ} (s : MState d) (mapOut : DataPoints d) :
    MState d × DataPoints d × Bool :=
  if s.newMapAvailable then ({ s with newMapAvailable := false }, s.map, true)
  else (s, mapOut, false)

/-- `Mapper::getSensorPose` (Mapper.cpp lines 389–392). -/
def getSensorPose {d : ℕ} (s : MState d) : HT d := s.sensorPose

/-- What claim C2 asserts the ICP operator receives (a definition following
the claim's words, for comparison with `icpInputCloud`): the sensor-frame
cloud first radius-filtered and passed through the sensor-frame input filter
chain, then registered against the map, i.e. expressed in the map frame by
the pose guess. -/
def icpInputClaimed {d : ℕ} (pr : Params) (co : Collab d)
    (inputInSensorFrame : DataPoints d) (estimatedSensorPose : HT d) : DataPoints d :=
  transformCloud estimatedSensorPose
    (co.inputFilters (radiusFilterCloud pr.sensorMaxRange inputInSensorFrame))

/-! Concrete one-dimensional instances used to exercise the embedding. -/

/-- One-dimensional point. -/
def v1 (q : ℚ) : Vec 1 := fun _ => q

/-- One-dimensional rigid transform: identity rotation, translation `q`. -/
def t1 (q : ℚ) : HT 1 := ⟨1, v1 q⟩

/-- One-point cloud with no descriptors. -/
def cloud1 (q : ℚ) : DataPoints 1 := ⟨[v1 q], []⟩

/-- One-point cloud carrying a unit `normals` descriptor. -/
def cloudN (q : ℚ) : DataPoints 1 := ⟨[v1 q], [("normals", [[1]])]⟩

/-- Identity collaborators: no-op filter chains, an ICP operator returning
the identity correction with overlap 1, and trivial math-library stubs (the
dynamic-probability path is not exercised by the runs that use them). -/
def coId : Collab 1 :=
  { inputFilters := fun c => c
    inputFiltersWorld := fun c => c
    mapPostFilters := fun c => c
    icp := fun _ _ => Except.ok (HT.ident 1, 1)
    norm := fun v => v 0
    sqrt := fun _ => 0
    angularMatch := fun _ _ _ => none }

/-- Collaborators whose ICP operator always answers with a translation by
100 (a large correction), overlap 1. -/
def coShift : Collab 1 := { coId with icp := fun _ _ => Except.ok (t1 100, 1) }

/-- Collaborators whose ICP operator fails exactly when its input cloud
contains a point farther than 10 from the origin, recording which cloud the
operator was handed. -/
def coFar : Collab 1 :=
  { coId with
      icp := fun _ inp =>
        if inp.features.any (fun f => decide ((10 : ℚ) ^ 2 < sqNorm f)) then
          Except.error "far point reached icp"
        else Except.ok (HT.ident 1, 1) }

/-- Collaborators whose ICP operator always fails. -/
def coFail : Collab 1 := { coId with icp := fun _ _ => Except.error "icp failed" }

/-- Base parameters for the concrete runs: sensor range 10, offline, not
mapping, dynamic probability off. -/
def prBase : Params :=
  { mapUpdateCondition := "overlap"
    mapUpdateOverlap := 0
    mapUpdateDelay := 0
    mapUpdateDistance := 0
    minDistNewPoint := 0
    sensorMaxRange := 10
    priorDynamic := 0
    thresholdDynamic := 1
    beamHalfAngle := 1
    epsilonA := 0
    epsilonD := 0
    alpha := 1
    beta := 1
    is3D := false
    isOnline := false
    computeProbDynamic := false
    isMapping := false }

/-- Parameters with the dynamic-probability update enabled and
`priorDynamic = 0` (an admissible prior per spec §6). -/
def prDyn : Params := { prBase with computeProbDynamic := true, priorDynamic := 0 }

/-- A non-empty reachable-shaped state over the one-point map at 5: map and
ICP reference both hold the point, pose at the origin. -/
def stNE : MState 1 :=
  { map := cloud1 5
    sensorPose := t1 0
    icpRef := cloud1 5
    newMapAvailable := false
    isMapEmpty := false
    mapBuilderBusy := false
    lastTimeMapWasUpdated := 0
    lastSensorPoseWhereMapWasUpdated := t1 0 }

/-- First concrete run: feed the point at 5 to a fresh mapper (empty map,
identity pose guess). -/
def run1 : PIOut 1 := processInput prBase coShift (initState 1) (cloud1 5) (t1 0) 0

/-- Second concrete run: feed the same point again from the state the first
run produced; the ICP operator answers with a translation by 100 and the
mapper is not mapping, so no build runs. -/
def run2 : PIOut 1 := processInput prBase coShift run1.state (cloud1 5) (t1 0) 1

/-- The state after the first concrete run: the point at 5 is the map and
the ICP reference, the pose is at the origin. -/
def stRun1 : MState 1 :=
  { map := cloud1 5
    sensorPose := t1 0
    icpRef := cloud1 5
    newMapAvailable := true
    isMapEmpty := false
    mapBuilderBusy := false
    lastTimeMapWasUpdated := 0
    lastSensorPoseWhereMapWasUpdated := t1 0 }

/-- First far-point run: same first call as `run1` but with the `coFar`
collaborators (the ICP operator is not consulted on an empty map). -/
def runF1 : PIOut 1 := processInput prBase coFar (initState 1) (cloud1 5) (t1 0) 0

/-- Second far-point run: feed a point at 20 — beyond the sensor range of
10 — on the non-empty map; the `coFar` ICP operator errors iff its input
cloud still contains that far point. -/
def runF2 : PIOut 1 := processInput prBase coFar runF1.state (cloud1 20) (t1 0) 1

/-- One-point cloud carrying `probabilityDynamic` and unit `normals`
descriptors, in the order `buildMap`'s `addDescriptor` produces. -/
def cloudNP (q p : ℚ) : DataPoints 1 :=
  ⟨[v1 q], [("probabilityDynamic", [[p]]), ("normals", [[1]])]⟩

/-- Dynamic-probability run: first call on an empty map with
`computeProbDynamic` enabled and `priorDynamic = 0`, feeding a cloud that
carries normals. -/
def runDyn : PIOut 1 := processInput prDyn coId (initState 1) (cloudN 5) (t1 0) 0

/-- The state after `runDyn`: the map point carries
`probabilityDynamic = 0`. -/
def stDyn : MState 1 :=
  { map := cloudNP 5 0
    sensorPose := t1 0
    icpRef := cloudNP 5 0
    newMapAvailable := true
    isMapEmpty := false
    mapBuilderBusy := false
    lastTimeMapWasUpdated := 0
    lastSensorPoseWhereMapWasUpdated := t1 0 }

/-! Helper lemmas about the embedding. -/

theorem applyMask_map_filter {α : Type} (p : α → Bool) (l : List α) :
    applyMask (l.map p) l = l.filter p := by
  induction l with
  | nil => rfl
  | cons x xs ih =>
    cases h : p x <;> simp [applyMask, List.filter_cons, h, ih]

theorem applyMask_sublist {α : Type} (bs : List Bool) (l : List α) :
    (applyMask bs l).Sublist l := by
  induction l generalizing bs with
  | nil => cases bs <;> simp [applyMask]
  | cons x xs ih =>
    cases bs with
    | nil => simp [applyMask]
    | cons b bs =>
      cases b
      · exact (ih bs).cons x
      · exact (ih bs).cons₂ x

theorem forall2_map_self {α β : Type} (f : α → β) (r : β → α → Prop)
    (l : List α) (h : ∀ x ∈ l, r (f x) x) : List.Forall₂ r (l.map f) l := by
  induction l with
  | nil => simp
  | cons x xs ih =>
    exact List.Forall₂.cons (h x (List.mem_cons_self x xs))
      (ih fun y hy => h y (List.mem_cons_of_mem x hy))

theorem isRigid_ident (d : ℕ) : (HT.ident d).IsRigid := by
  show (1 : Matrix (Fin d) (Fin d) ℚ).transpose * 1 = 1
  rw [Matrix.transpose_one, Matrix.one_mul]

theorem isRigid_comp {d : ℕ} {A B : HT d} (hA : A.IsRigid) (hB : B.IsRigid) :
    (A.comp B).IsRigid := by
  show (A.rot * B.rot).transpose * (A.rot * B.rot) = 1
  rw [Matrix.transpose_mul, Matrix.mul_assoc,
    ← Matrix.mul_assoc A.rot.transpose, hA, Matrix.one_mul, hB]

theorem inv_apply_apply {d : ℕ} {T : HT d} (h : T.IsRigid) (v : Vec d) :
    T.inv.apply (T.apply v) = v := by
  show T.rot.transpose.mulVec (T.rot.mulVec v + T.trans) +
    -(T.rot.transpose.mulVec T.trans) = v
  rw [Matrix.mulVec_add, Matrix.mulVec_mulVec, h, Matrix.one_mulVec]
  abel

theorem sqNorm_of_mem_crop {d : ℕ} {range : ℚ} {m : DataPoints d} {T : HT d}
    (h : T.IsRigid) {p : Vec d}
    (hp : p ∈ (transformCloud T
      (radiusFilterCloud range (transformCloud T.inv m))).features) :
    sqNorm (T.inv.apply p) ≤ range ^ 2 := by
  rcases List.mem_map.mp hp with ⟨q, hq, rfl⟩
  have hq2 : q ∈ (transformCloud T.inv m).features.filter
      (fun f => decide (sqNorm f ≤ range ^ 2)) := by
    simpa [radiusFilterCloud, maskCols, applyMask_map_filter] using hq
  have hbound := (List.mem_filter.mp hq2).2
  rw [inv_apply_apply h]
  simpa using hbound

theorem t1_apply (a b : ℚ) : (t1 a).apply (v1 b) = v1 (b + a) := by
  funext i
  show ((1 : Matrix (Fin 1) (Fin 1) ℚ).mulVec (v1 b) + v1 a) i = b + a
  rw [Matrix.one_mulVec]
  rfl

theorem t1_inv (a : ℚ) : (t1 a).inv = t1 (-a) := by
  show (⟨(1 : Matrix (Fin 1) (Fin 1) ℚ).transpose,
    -((1 : Matrix (Fin 1) (Fin 1) ℚ).transpose.mulVec (v1 a))⟩ : HT 1) = t1 (-a)
  rw [Matrix.transpose_one]
  congr 1
  funext i
  rw [Matrix.one_mulVec]
  rfl

theorem t1_comp (a b : ℚ) : (t1 a).comp (t1 b) = t1 (b + a) := by
  show (⟨(1 : Matrix (Fin 1) (Fin 1) ℚ) * 1,
    (1 : Matrix (Fin 1) (Fin 1) ℚ).mulVec (v1 b) + v1 a⟩ : HT 1) = t1 (b + a)
  rw [Matrix.one_mul]
  congr 1
  funext i
  rw [Matrix.one_mulVec]
  rfl

theorem ident_eq_t1 : HT.ident 1 = t1 0 := by
  show (⟨1, (0 : Vec 1)⟩ : HT 1) = t1 0
  congr 1

theorem sqNorm_v1 (q : ℚ) : sqNorm (v1 q) = q ^ 2 := by
  simp [sqNorm, v1]

theorem transform_t1_cloud1 (a b : ℚ) :
    transformCloud (t1 a) (cloud1 b) = cloud1 (b + a) := by
  simp [transformCloud, cloud1, t1_apply]

theorem cloud1_features (b : ℚ) : (cloud1 b).features = [v1 b] := rfl

theorem cloud1_descriptors (b : ℚ) : (cloud1 b).descriptors = [] := rfl

theorem radius_keep_cloud1 {r b : ℚ} (h : b ^ 2 ≤ r ^ 2) :
    radiusFilterCloud r (cloud1 b) = cloud1 b := by
  simp [radiusFilterCloud, cloud1, maskCols, sqNorm_v1, decide_eq_true h, applyMask]

theorem radius_drop_cloud1 {r b : ℚ} (h : ¬ b ^ 2 ≤ r ^ 2) :
    radiusFilterCloud r (cloud1 b) = ⟨[], []⟩ := by
  simp [radiusFilterCloud, cloud1, maskCols, sqNorm_v1, decide_eq_false h, applyMask]

theorem transform_t1_cloudN (a q : ℚ) :
    transformCloud (t1 a) (cloudN q) = cloudN (q + a) := by
  simp [transformCloud, cloudN, t1_apply]

theorem transform_t1_cloudNP (a q p : ℚ) :
    transformCloud (t1 a) (cloudNP q p) = cloudNP (q + a) p := by
  simp [transformCloud, cloudNP, t1_apply]

theorem radius_keep_cloudN {r q : ℚ} (h : q ^ 2 ≤ r ^ 2) :
    radiusFilterCloud r (cloudN q) = cloudN q := by
  simp [radiusFilterCloud, cloudN, maskCols, sqNorm_v1, decide_eq_true h, applyMask]

theorem radius_keep_cloudNP {r q p : ℚ} (h : q ^ 2 ≤ r ^ 2) :
    radiusFilterCloud r (cloudNP q p) = cloudNP q p := by
  simp [radiusFilterCloud, cloudNP, maskCols, sqNorm_v1, decide_eq_true h, applyMask]

theorem addDescriptor_cloudN (q p : ℚ) :
    addDescriptor "probabilityDynamic" [[p]] (cloudN q) = cloudNP q p := by
  simp [addDescriptor, cloudN, cloudNP]

theorem cloudN_features (q : ℚ) : (cloudN q).features = [v1 q] := rfl

theorem cloudNP_features (q p : ℚ) : (cloudNP q p).features = [v1 q] := rfl

theorem cloudNP_normals (q p : ℚ) :
    descriptorExists "normals" (cloudNP q p) = true := by
  simp [descriptorExists, cloudNP, List.lookup]

theorem run1_eval : run1 = ⟨stRun1, cloud1 5, some BuildDispatch.sync, none⟩ := by
  have h5 : ((5 : ℚ)) ^ 2 ≤ (10 : ℚ) ^ 2 := by norm_num
  simp only [run1, processInput, icpInputCloud, updateMap, buildMap,
    buildMapCommit, setMap, shouldUpdateMap, initState, prBase, coShift, coId,
    descriptorExists, transform_t1_cloud1]
  norm_num [radius_keep_cloud1, h5, transform_t1_cloud1, t1_inv, ident_eq_t1,
    stRun1, cloud1_features]

theorem run2_eval :
    run2 = ⟨{ stRun1 with sensorPose := t1 100 }, cloud1 5, none, none⟩ := by
  have h5 : ((5 : ℚ)) ^ 2 ≤ (10 : ℚ) ^ 2 := by norm_num
  simp only [run2, run1_eval]
  simp only [processInput, icpInputCloud, shouldUpdateMap, prBase, coShift, coId,
    stRun1]
  norm_num [radius_keep_cloud1, h5, transform_t1_cloud1, t1_comp]

theorem runF1_eval : runF1 = ⟨stRun1, cloud1 5, some BuildDispatch.sync, none⟩ := by
  have h5 : ((5 : ℚ)) ^ 2 ≤ (10 : ℚ) ^ 2 := by norm_num
  simp only [runF1, processInput, icpInputCloud, updateMap, buildMap,
    buildMapCommit, setMap, shouldUpdateMap, initState, prBase, coFar, coId,
    descriptorExists, transform_t1_cloud1]
  norm_num [radius_keep_cloud1, h5, transform_t1_cloud1, t1_inv, ident_eq_t1,
    stRun1, cloud1_features]

theorem runF2_eval :
    runF2 = ⟨stRun1, ⟨[], []⟩, none, some "far point reached icp"⟩ := by
  have h20 : ¬ ((20 : ℚ)) ^ 2 ≤ (10 : ℚ) ^ 2 := by norm_num
  simp only [runF2, runF1_eval]
  simp only [processInput, icpInputCloud, coFar, coId, stRun1, prBase]
  norm_num [transform_t1_cloud1, radius_drop_cloud1, h20, sqNorm_v1,
    cloud1_features]

theorem runDyn_eval : runDyn = ⟨stDyn, cloudN 5, some BuildDispatch.sync, none⟩ := by
  have h5 : ((5 : ℚ)) ^ 2 ≤ (10 : ℚ) ^ 2 := by norm_num
  simp only [runDyn, processInput, icpInputCloud, updateMap, buildMap,
    buildMapCommit, setMap, shouldUpdateMap, initState, prDyn, prBase, coId,
    cloudN_features, transform_t1_cloudN]
  norm_num [radius_keep_cloudN, radius_keep_cloudNP, h5, transform_t1_cloudN,
    transform_t1_cloudNP, t1_inv, ident_eq_t1, stDyn, cloudNP_features,
    cloudNP_normals, addDescriptor_cloudN, List.replicate]

theorem isRigid_t1 (a : ℚ) : (t1 a).IsRigid := by
  show (1 : Matrix (Fin 1) (Fin 1) ℚ).transpose * 1 = 1
  rw [Matrix.transpose_one, Matrix.one_mul]

theorem setMap_ok {d : ℕ} {pr : Params} {s : MState d} {m : DataPoints d}
    {p : HT d} {s2 : MState d} (h : setMap pr s m p = (s2, none)) :
    s2 = { s with
      icpRef := transformCloud p
        (radiusFilterCloud pr.sensorMaxRange (transformCloud p.inv m))
      map := m
      newMapAvailable := true
      isMapEmpty := m.features.length == 0 } := by
  unfold setMap at h
  split at h
  · exact absurd (congrArg Prod.snd h) (by simp)
  · exact (congrArg Prod.fst h).symm

theorem buildMapCommit_ok {d : ℕ} {pr : Params} {co : Collab d} {st : MState d}
    {m2 : DataPoints d} {cp : HT d} {st2 : MState d}
    (h : buildMapCommit pr co st m2 cp = (st2, none)) :
    st2.icpRef = transformCloud cp
      (radiusFilterCloud pr.sensorMaxRange (transformCloud cp.inv st2.map)) ∧
    st2.sensorPose = st.sensorPose := by
  have h2 := setMap_ok (show setMap pr st
    (transformCloud cp (co.mapPostFilters (transformCloud cp.inv m2))) cp =
      (st2, none) from h)
  subst h2
  exact ⟨rfl, rfl⟩

theorem buildMap_ok {d : ℕ} {pr : Params} {co : Collab d} {st : MState d}
    {ci cm : DataPoints d} {cp : HT d} {st2 : MState d}
    (h : buildMap pr co st ci cm cp = (st2, none)) :
    st2.icpRef = transformCloud cp
      (radiusFilterCloud pr.sensorMaxRange (transformCloud cp.inv st2.map)) ∧
    st2.sensorPose = st.sensorPose := by
  cases hme : st.isMapEmpty with
  | true =>
    simp only [buildMap, hme, if_true] at h
    exact buildMapCommit_ok h
  | false =>
    cases hpd : pr.computeProbDynamic with
    | false =>
      simp only [buildMap, hme, hpd, Bool.false_eq_true, if_false] at h
      exact buildMapCommit_ok h
    | true =>
      simp only [buildMap, hme, hpd, Bool.false_eq_true, if_false, if_true] at h
      cases hd : (computeProbabilityOfPointsBeingDynamic pr co
          (addDescriptor "probabilityDynamic"
            (List.replicate ci.features.length [pr.priorDynamic]) ci) cm cp).2 with
      | some e =>
        rw [hd] at h
        exact absurd (congrArg Prod.snd h) (by simp)
      | none =>
        rw [hd] at h
        exact buildMapCommit_ok h

theorem buildMap_pair_eta {d : ℕ} (pr : Params) (co : Collab d) (st : MState d)
    (ci cm : DataPoints d) (cp : HT d) :
    buildMap pr co st ci cm cp =
      ((buildMap pr co st ci cm cp).1, (buildMap pr co st ci cm cp).2) := rfl

theorem updateMap_offline {d : ℕ} {pr : Params} (hoff : pr.isOnline = false)
    (co : Collab d) (s : MState d) (ci : DataPoints d) (t : ℚ) :
    updateMap pr co s ci t =
      ((buildMap pr co
          { s with lastTimeMapWasUpdated := t
                   lastSensorPoseWhereMapWasUpdated := s.sensorPose } ci
          { s with lastTimeMapWasUpdated := t
                   lastSensorPoseWhereMapWasUpdated := s.sensorPose }.map
          { s with lastTimeMapWasUpdated := t
                   lastSensorPoseWhereMapWasUpdated := s.sensorPose }.sensorPose).1,
        BuildDispatch.sync,
        (buildMap pr co
          { s with lastTimeMapWasUpdated := t
                   lastSensorPoseWhereMapWasUpdated := s.sensorPose } ci
          { s with lastTimeMapWasUpdated := t
                   lastSensorPoseWhereMapWasUpdated := s.sensorPose }.map
          { s with lastTimeMapWasUpdated := t
                   lastSensorPoseWhereMapWasUpdated := s.sensorPose }.sensorPose).2) := by
  simp [updateMap, hoff]

theorem processInput_empty {d : ℕ} {pr : Params} {co : Collab d} {s : MState d}
    (input : DataPoints d) (pose : HT d) (t : ℚ) (hme : s.isMapEmpty = true) :
    processInput pr co s input pose t =
      ⟨(buildMap pr co
          { s with sensorPose := pose, lastTimeMapWasUpdated := t,
                   lastSensorPoseWhereMapWasUpdated := pose }
          (icpInputCloud co input pose) s.map pose).1,
        co.inputFilters (radiusFilterCloud pr.sensorMaxRange input),
        some BuildDispatch.sync,
        (buildMap pr co
          { s with sensorPose := pose, lastTimeMapWasUpdated := t,
                   lastSensorPoseWhereMapWasUpdated := pose }
          (icpInputCloud co input pose) s.map pose).2⟩ := by
  simp [processInput, hme, updateMap]

theorem processInput_icp_error {d : ℕ} {pr : Params} {co : Collab d}
    {s : MState d} {input : DataPoints d} {pose : HT d} (t : ℚ) {e : String}
    (hme : s.isMapEmpty = false)
    (hicp : co.icp s.icpRef (icpInputCloud co input pose) = Except.error e) :
    processInput pr co s input pose t =
      ⟨s, co.inputFilters (radiusFilterCloud pr.sensorMaxRange input),
        none, some e⟩ := by
  simp [processInput, hme, hicp]

theorem processInput_noupdate {d : ℕ} {pr : Params} {co : Collab d}
    {s : MState d} {input : DataPoints d} {pose : HT d} {t : ℚ}
    {c : HT d} {ov : ℚ} (hme : s.isMapEmpty = false)
    (hicp : co.icp s.icpRef (icpInputCloud co input pose) = Except.ok (c, ov))
    (hsu : shouldUpdateMap pr { s with sensorPose := c.comp pose } t
      (c.comp pose) ov = false) :
    processInput pr co s input pose t =
      ⟨{ s with sensorPose := c.comp pose },
        co.inputFilters (radiusFilterCloud pr.sensorMaxRange input),
        none, none⟩ := by
  simp only [hme] at hsu
  simp [processInput, hme, hicp, hsu]

theorem processInput_update {d : ℕ} {pr : Params} {co : Collab d}
    {s : MState d} {input : DataPoints d} {pose : HT d} {t : ℚ}
    {c : HT d} {ov : ℚ} (hme : s.isMapEmpty = false)
    (hicp : co.icp s.icpRef (icpInputCloud co input pose) = Except.ok (c, ov))
    (hsu : shouldUpdateMap pr { s with sensorPose := c.comp pose } t
      (c.comp pose) ov = true) :
    processInput pr co s input pose t =
      ⟨(updateMap pr co { s with sensorPose := c.comp pose }
          (transformCloud c (icpInputCloud co input pose)) t).1,
        co.inputFilters (radiusFilterCloud pr.sensorMaxRange input),
        some (updateMap pr co { s with sensorPose := c.comp pose }
          (transformCloud c (icpInputCloud co input pose)) t).2.1,
        (updateMap pr co { s with sensorPose := c.comp pose }
          (transformCloud c (icpInputCloud co input pose)) t).2.2⟩ := by
  simp only [hme] at hsu
  simp [processInput, hme, hicp, hsu]

theorem buildMapCommit_fst_sensorPose {d : ℕ} {pr : Params} {co : Collab d}
    {st : MState d} {m2 : DataPoints d} {cp : HT d} :
    (buildMapCommit pr co st m2 cp).1.sensorPose = st.sensorPose := by
  cases hcd : pr.computeProbDynamic && !descriptorExists "normals"
      (transformCloud cp (co.mapPostFilters (transformCloud cp.inv m2))) with
  | true => simp [buildMapCommit, setMap, hcd]
  | false => simp [buildMapCommit, setMap, hcd]

theorem buildMap_fst_sensorPose {d : ℕ} {pr : Params} {co : Collab d}
    {st : MState d} {ci cm : DataPoints d} {cp : HT d} :
    (buildMap pr co st ci cm cp).1.sensorPose = st.sensorPose := by
  cases hme2 : st.isMapEmpty with
  | true =>
    simp only [buildMap, hme2, if_true]
    exact buildMapCommit_fst_sensorPose
  | false =>
    cases hpd : pr.computeProbDynamic with
    | false =>
      simp only [buildMap, hme2, hpd, Bool.false_eq_true, if_false]
      exact buildMapCommit_fst_sensorPose
    | true =>
      simp only [buildMap, hme2, hpd, Bool.false_eq_true, if_false, if_true]
      cases hd : (computeProbabilityOfPointsBeingDynamic pr co
          (addDescriptor "probabilityDynamic"
            (List.replicate ci.features.length [pr.priorDynamic]) ci) cm cp).2 with
      | some e => rfl
      | none => exact buildMapCommit_fst_sensorPose

theorem updateMap_fst_sensorPose {d : ℕ} {pr : Params} {co : Collab d}
    {s : MState d} {ci : DataPoints d} {t : ℚ} :
    (updateMap pr co s ci t).1.sensorPose = s.sensorPose := by
  cases hon : pr.isOnline && !s.isMapEmpty with
  | true =>
    simp only [updateMap, hon, if_true]
    exact buildMap_fst_sensorPose
  | false =>
    simp only [updateMap, hon, Bool.false_eq_true, if_false]
    exact buildMap_fst_sensorPose

theorem buildMap_snd_ok {d : ℕ} {pr : Params} {co : Collab d} {st : MState d}
    {ci cm : DataPoints d} {cp : HT d}
    (h : (buildMap pr co st ci cm cp).2 = none) :
    (buildMap pr co st ci cm cp).1.icpRef =
      transformCloud cp (radiusFilterCloud pr.sensorMaxRange
        (transformCloud cp.inv (buildMap pr co st ci cm cp).1.map)) ∧
    (buildMap pr co st ci cm cp).1.sensorPose = st.sensorPose := by
  have hb : buildMap pr co st ci cm cp = ((buildMap pr co st ci cm cp).1, none) := by
    rw [← h]
  exact buildMap_ok hb

/-- C1: the claim asserts that after every successful `processInput` the ICP
reference holds only points within `sensorMaxRange` of the **current**
`sensorPose`, explicitly including calls in which `shouldUpdateMap` returns
false and no build runs. The code re-crops the reference only inside
`setMap`, so without a build the reference stays cropped around the pose of
the last commit while `sensorPose` moves with the ICP correction. Amended:
in offline mode, when the call ran a build the reference is the new map
cropped to `sensorMaxRange` of the now-current pose (squared comparison,
given rigid poses), and when no build ran the reference is unchanged from
before the call. -/
theorem claim1_amended {d : ℕ} (pr : Params) (co : Collab d) (s : MState d)
    (input : DataPoints d) (pose : HT d) (t : ℚ)
    (hoff : pr.isOnline = false) (hpose : pose.IsRigid)
    (hicp : ∀ ref inp c ov, co.icp ref inp = Except.ok (c, ov) → c.IsRigid) :
    ((processInput pr co s input pose t).dispatch = none →
      (processInput pr co s input pose t).state.icpRef = s.icpRef) ∧
    ((processInput pr co s input pose t).error = none →
      ∀ disp, (processInput pr co s input pose t).dispatch = some disp →
      (processInput pr co s input pose t).state.icpRef =
        transformCloud (processInput pr co s input pose t).state.sensorPose
          (radiusFilterCloud pr.sensorMaxRange
            (transformCloud
              (processInput pr co s input pose t).state.sensorPose.inv
              (processInput pr co s input pose t).state.map)) ∧
      ∀ p ∈ (processInput pr co s input pose t).state.icpRef.features,
        sqNorm
          ((processInput pr co s input pose t).state.sensorPose.inv.apply p) ≤
          pr.sensorMaxRange ^ 2) := by
  cases hme : s.isMapEmpty with
  | true =>
    rw [processInput_empty input pose t hme]
    refine ⟨fun hcontra => by simp at hcontra, fun herr disp _ => ?_⟩
    rcases buildMap_snd_ok herr with ⟨hicpref, hsp⟩
    simp only [] at hsp
    constructor
    · rw [show (⟨(buildMap pr co
          { s with sensorPose := pose, lastTimeMapWasUpdated := t,
                   lastSensorPoseWhereMapWasUpdated := pose }
          (icpInputCloud co input pose) s.map pose).1,
          co.inputFilters (radiusFilterCloud pr.sensorMaxRange input),
          some BuildDispatch.sync, none⟩ : PIOut d).state.sensorPose =
          pose from hsp]
      exact hicpref
    · intro p hp
      rw [hicpref] at hp
      rw [show (⟨(buildMap pr co
          { s with sensorPose := pose, lastTimeMapWasUpdated := t,
                   lastSensorPoseWhereMapWasUpdated := pose }
          (icpInputCloud co input pose) s.map pose).1,
          co.inputFilters (radiusFilterCloud pr.sensorMaxRange input),
          some BuildDispatch.sync, none⟩ : PIOut d).state.sensorPose =
          pose from hsp]
      exact sqNorm_of_mem_crop hpose hp
  | false =>
    cases hicpres : co.icp s.icpRef (icpInputCloud co input pose) with
    | error e =>
      rw [processInput_icp_error t hme hicpres]
      exact ⟨fun _ => rfl, fun herr => by simp at herr⟩
    | ok cres =>
      rcases cres with ⟨c, ov⟩
      have hrig : (c.comp pose).IsRigid := isRigid_comp (hicp _ _ _ _ hicpres) hpose
      cases hsu : shouldUpdateMap pr { s with sensorPose := c.comp pose } t
          (c.comp pose) ov with
      | false =>
        rw [processInput_noupdate hme hicpres hsu]
        exact ⟨fun _ => rfl, fun _ disp hdisp => by simp at hdisp⟩
      | true =>
        rw [processInput_update hme hicpres hsu, updateMap_offline hoff]
        refine ⟨fun hcontra => by simp at hcontra, fun herr disp _ => ?_⟩
        rcases buildMap_snd_ok herr with ⟨hicpref, hsp⟩
        simp only [] at hsp
        constructor
        · rw [show (⟨(buildMap pr co
              { s with sensorPose := c.comp pose, lastTimeMapWasUpdated := t,
                       lastSensorPoseWhereMapWasUpdated := c.comp pose }
              (transformCloud c (icpInputCloud co input pose)) s.map
              (c.comp pose)).1,
              co.inputFilters (radiusFilterCloud pr.sensorMaxRange input),
              some BuildDispatch.sync, none⟩ : PIOut d).state.sensorPose =
              c.comp pose from hsp]
          exact hicpref
        · intro p hp
          rw [hicpref] at hp
          rw [show (⟨(buildMap pr co
              { s with sensorPose := c.comp pose, lastTimeMapWasUpdated := t,
                       lastSensorPoseWhereMapWasUpdated := c.comp pose }
              (transformCloud c (icpInputCloud co input pose)) s.map
              (c.comp pose)).1,
              co.inputFilters (radiusFilterCloud pr.sensorMaxRange input),
              some BuildDispatch.sync, none⟩ : PIOut d).state.sensorPose =
              c.comp pose from hsp]
          exact sqNorm_of_mem_crop hrig hp

/-- C1 is false as stated: a two-call run in which the first call builds the
map around the origin pose and the second call gets an ICP correction of
100 with mapping disabled (no build runs) leaves the ICP reference holding
the point at 5, which is 95 away from the now-current `sensorPose` — far
beyond the sensor range of 10; both calls succeed. -/
theorem claim1_counterexample :
    run1.error = none ∧ run2.error = none ∧ run2.dispatch = none ∧
    ∃ p ∈ run2.state.icpRef.features,
      ¬ sqNorm (run2.state.sensorPose.inv.apply p) ≤ prBase.sensorMaxRange ^ 2 := by
  refine ⟨by rw [run1_eval], by rw [run2_eval], by rw [run2_eval], ?_⟩
  refine ⟨v1 5, ?_, ?_⟩
  · rw [run2_eval]
    simp [stRun1, cloud1_features]
  · rw [run2_eval]
    norm_num [stRun1, t1_inv, t1_apply, sqNorm_v1, prBase]

/-- Witness for the amended C1 at a concrete run: the first call builds the
map synchronously and afterwards the reference is the cropped map around
the current pose, with every reference point within the squared range. -/
theorem claim1_witness :
    run1.state.icpRef =
      transformCloud run1.state.sensorPose
        (radiusFilterCloud prBase.sensorMaxRange
          (transformCloud run1.state.sensorPose.inv run1.state.map)) ∧
    ∀ p ∈ run1.state.icpRef.features,
      sqNorm (run1.state.sensorPose.inv.apply p) ≤ prBase.sensorMaxRange ^ 2 := by
  have h := (claim1_amended prBase coShift (initState 1) (cloud1 5) (t1 0) 0
    rfl (isRigid_t1 0)
    (fun ref inp c ov hc => by
      simp only [coShift, coId] at hc
      cases hc
      exact isRigid_t1 100)).2
  exact h
    (by rw [show processInput prBase coShift (initState 1) (cloud1 5) (t1 0) 0 =
        run1 from rfl, run1_eval])
    BuildDispatch.sync
    (by rw [show processInput prBase coShift (initState 1) (cloud1 5) (t1 0) 0 =
        run1 from rfl, run1_eval])

/-- C3: after a successful `processInput` on an empty map the sensor pose is
the pose guess itself, and on a non-empty map it is `correction · poseGuess`
with `correction` the transform returned by the ICP operator for this call
(Mapper.cpp lines 94 and 104; nothing later in the call writes
`sensorPose`). -/
theorem claim3 {d : ℕ} (pr : Params) (co : Collab d) (s : MState d)
    (input : DataPoints d) (pose : HT d) (t : ℚ) :
    (s.isMapEmpty = true → (processInput pr co s input pose t).error = none →
      (processInput pr co s input pose t).state.sensorPose = pose) ∧
    (∀ c ov, s.isMapEmpty = false →
      co.icp s.icpRef (icpInputCloud co input pose) = Except.ok (c, ov) →
      (processInput pr co s input pose t).error = none →
      (processInput pr co s input pose t).state.sensorPose = c.comp pose) := by
  constructor
  · intro hme _herr
    rw [processInput_empty input pose t hme]
    exact buildMap_fst_sensorPose
  · intro c ov hme hicpres _herr
    cases hsu : shouldUpdateMap pr { s with sensorPose := c.comp pose } t
        (c.comp pose) ov with
    | false => rw [processInput_noupdate hme hicpres hsu]
    | true =>
      rw [processInput_update hme hicpres hsu]
      exact updateMap_fst_sensorPose

/-- Witness for C3: the first concrete run keeps the identity pose guess;
the second ends at the ICP correction composed with the pose guess. -/
theorem claim3_witness :
    run1.state.sensorPose = t1 0 ∧
    run2.state.sensorPose = (t1 100).comp (t1 0) := by
  constructor
  · exact (claim3 prBase coShift (initState 1) (cloud1 5) (t1 0) 0).1 rfl
      (by rw [show processInput prBase coShift (initState 1) (cloud1 5) (t1 0) 0 =
          run1 from rfl, run1_eval])
  · exact (claim3 prBase coShift run1.state (cloud1 5) (t1 0) 1).2 (t1 100) 1
      (by rw [run1_eval]; rfl) rfl
      (by rw [show processInput prBase coShift run1.state (cloud1 5) (t1 0) 1 =
          run2 from rfl, run2_eval])

/-- C7: when the ICP operator raises on a non-empty map, `processInput`
propagates that error and the state at the throw point still carries the
prior map and prior sensor pose (the throw at Mapper.cpp line 101 precedes
the pose write at line 104 and any map update). -/
theorem claim7 {d : ℕ} (pr : Params) (co : Collab d) (s : MState d)
    (input : DataPoints d) (pose : HT d) (t : ℚ) (e : String)
    (hme : s.isMapEmpty = false)
    (hicp : co.icp s.icpRef (icpInputCloud co input pose) = Except.error e) :
    (processInput pr co s input pose t).error = some e ∧
    (processInput pr co s input pose t).state.map = s.map ∧
    (processInput pr co s input pose t).state.sensorPose = s.sensorPose := by
  rw [processInput_icp_error t hme hicp]
  exact ⟨rfl, rfl, rfl⟩

/-- Witness for C7 on a concrete non-empty state with an always-failing ICP
operator. -/
theorem claim7_witness :
    (processInput prBase coFail stNE (cloud1 5) (t1 0) 0).error =
      some "icp failed" ∧
    (processInput prBase coFail stNE (cloud1 5) (t1 0) 0).state.map = stNE.map ∧
    (processInput prBase coFail stNE (cloud1 5) (t1 0) 0).state.sensorPose =
      stNE.sensorPose :=
  claim7 prBase coFail stNE (cloud1 5) (t1 0) 0 "icp failed" rfl rfl

/-- C9: a `processInput` on an empty map dispatches `updateMap`
unconditionally and synchronously (Mapper.cpp lines 92–97; `updateMap`'s
async branch requires a non-empty map), and the outcome does not depend on
`isMapping`, which is read only by the bypassed `shouldUpdateMap`. -/
theorem claim9 {d : ℕ} (pr : Params) (co : Collab d) (s : MState d)
    (input : DataPoints d) (pose : HT d) (t : ℚ) (hme : s.isMapEmpty = true) :
    (processInput pr co s input pose t).dispatch = some BuildDispatch.sync ∧
    ∀ b : Bool, processInput { pr with isMapping := b } co s input pose t =
      processInput pr co s input pose t := by
  constructor
  · rw [processInput_empty input pose t hme]
  · intro b
    rw [@processInput_empty d { pr with isMapping := b } co s input pose t hme,
      @processInput_empty d pr co s input pose t hme]
    rfl

/-- Witness for C9: a concrete first call builds synchronously and its
entire outcome is unchanged when `isMapping` is flipped to true. -/
theorem claim9_witness :
    (processInput prBase coId (initState 1) (cloud1 5) (t1 0) 0).dispatch =
      some BuildDispatch.sync ∧
    processInput { prBase with isMapping := true } coId (initState 1)
      (cloud1 5) (t1 0) 0 =
      processInput prBase coId (initState 1) (cloud1 5) (t1 0) 0 := by
  have h := claim9 prBase coId (initState 1) (cloud1 5) (t1 0) 0 rfl
  exact ⟨h.1, h.2 true⟩

/-- C2: the claim asserts the cloud passed to ICP was first radius-filtered
and sensor-frame-filtered. In the code `inputInMapFrame` is computed from
the pristine buffer (line 86) before those filters run (lines 89–90), so
the ICP input is only world-filtered. Amended: on a non-empty map the ICP
operator is invoked on `icpInputCloud` — the caller's cloud transformed by
the pose guess with the world-frame filter chain applied — its result alone
determines the outcome, and the sensor-frame input filter chain has no
effect on the resulting state (it only rewrites the caller's buffer). -/
theorem claim2_amended {d : ℕ} (pr : Params) (co : Collab d) (s : MState d)
    (input : DataPoints d) (pose : HT d) (t : ℚ) (hme : s.isMapEmpty = false) :
    (∀ e, co.icp s.icpRef (icpInputCloud co input pose) = Except.error e →
      (processInput pr co s input pose t).error = some e) ∧
    (∀ c ov, co.icp s.icpRef (icpInputCloud co input pose) = Except.ok (c, ov) →
      (processInput pr co s input pose t).state.sensorPose = c.comp pose) ∧
    (∀ f, (processInput pr { co with inputFilters := f } s input pose t).state =
      (processInput pr co s input pose t).state) := by
  refine ⟨?_, ?_, ?_⟩
  · intro e hicpres
    rw [processInput_icp_error t hme hicpres]
  · intro c ov hicpres
    cases hsu : shouldUpdateMap pr { s with sensorPose := c.comp pose } t
        (c.comp pose) ov with
    | false => rw [processInput_noupdate hme hicpres hsu]
    | true =>
      rw [processInput_update hme hicpres hsu]
      exact updateMap_fst_sensorPose
  · intro f
    cases hicpres : co.icp s.icpRef (icpInputCloud co input pose) with
    | error e =>
      rw [@processInput_icp_error d pr { co with inputFilters := f } s input
          pose t e hme hicpres,
        processInput_icp_error t hme hicpres]
    | ok cres =>
      rcases cres with ⟨c, ov⟩
      cases hsu : shouldUpdateMap pr { s with sensorPose := c.comp pose } t
          (c.comp pose) ov with
      | false =>
        rw [@processInput_noupdate d pr { co with inputFilters := f } s input
            pose t c ov hme hicpres hsu,
          processInput_noupdate hme hicpres hsu]
      | true =>
        rw [@processInput_update d pr { co with inputFilters := f } s input
            pose t c ov hme hicpres hsu,
          processInput_update hme hicpres hsu]
        rfl

/-- C2 is false as stated: with no-op filter chains, a second call feeding a
point at 20 (sensor range 10) reaches the ICP operator with that far point
still present — the operator, rigged to fail exactly when its input holds a
point beyond range 10, fails — although the radius filter would have
dropped the point, and the actually-passed cloud differs from the
radius-and-input-filtered cloud the claim describes. -/
theorem claim2_counterexample :
    runF2.error = some "far point reached icp" ∧
    icpInputCloud coFar (cloud1 20) (t1 0) ≠
      icpInputClaimed prBase coFar (cloud1 20) (t1 0) ∧
    (radiusFilterCloud prBase.sensorMaxRange (cloud1 20)).features = [] := by
  have h20 : ¬ ((20 : ℚ)) ^ 2 ≤ (10 : ℚ) ^ 2 := by norm_num
  refine ⟨by rw [runF2_eval], ?_, ?_⟩
  · intro h
    rw [show icpInputCloud coFar (cloud1 20) (t1 0) =
        transformCloud (t1 0) (cloud1 20) from rfl,
      show icpInputClaimed prBase coFar (cloud1 20) (t1 0) =
        transformCloud (t1 0)
          (radiusFilterCloud prBase.sensorMaxRange (cloud1 20)) from rfl] at h
    rw [show radiusFilterCloud prBase.sensorMaxRange (cloud1 20) =
        (⟨[], []⟩ : DataPoints 1) from radius_drop_cloud1 h20] at h
    rw [transform_t1_cloud1] at h
    have hf := congrArg DataPoints.features h
    simp [cloud1_features, transformCloud] at hf
  · rw [show radiusFilterCloud prBase.sensorMaxRange (cloud1 20) =
        (⟨[], []⟩ : DataPoints 1) from radius_drop_cloud1 h20]

/-- Witness for the amended C2 at concrete inputs: the rigged ICP error
propagates, and swapping the sensor-frame input filter chain for one that
empties the cloud leaves the resulting state unchanged. -/
theorem claim2_witness :
    (processInput prBase coFar stRun1 (cloud1 20) (t1 0) 1).error =
      some "far point reached icp" ∧
    (processInput prBase
        { coFar with inputFilters := fun _ => (⟨[], []⟩ : DataPoints 1) }
        stRun1 (cloud1 20) (t1 0) 1).state =
      (processInput prBase coFar stRun1 (cloud1 20) (t1 0) 1).state := by
  have hicpres : coFar.icp stRun1.icpRef (icpInputCloud coFar (cloud1 20) (t1 0)) =
      Except.error "far point reached icp" := by
    norm_num [coFar, coId, icpInputCloud, transform_t1_cloud1, cloud1_features,
      sqNorm_v1]
  have h := claim2_amended prBase coFar stRun1 (cloud1 20) (t1 0) 1 rfl
  exact ⟨h.1 "far point reached icp" hicpres,
    h.2.2 (fun _ => (⟨[], []⟩ : DataPoints 1))⟩

/-- C10: `getNewMap` returns false exactly when no new map is available;
a false return leaves the caller's output cloud and the whole state — in
particular the flag and the stored map — untouched, and a true return
copies the map, clears only the flag and keeps the stored map. -/
theorem claim10 {d : ℕ} (s : MState d) (mapOut : DataPoints d) :
    ((getNewMap s mapOut).2.2 = false ↔ s.newMapAvailable = false) ∧
    ((getNewMap s mapOut).2.2 = false →
      (getNewMap s mapOut).2.1 = mapOut ∧ (getNewMap s mapOut).1 = s) ∧
    ((getNewMap s mapOut).2.2 = true →
      (getNewMap s mapOut).2.1 = s.map ∧
      (getNewMap s mapOut).1.newMapAvailable = false ∧
      (getNewMap s mapOut).1.map = s.map) := by
  cases hn : s.newMapAvailable <;> simp [getNewMap, hn]

/-- Witness for C10 on a state with no new map available. -/
theorem claim10_witness :
    (getNewMap stNE (cloud1 7)).2.2 = false ∧
    (getNewMap stNE (cloud1 7)).2.1 = cloud1 7 ∧
    (getNewMap stNE (cloud1 7)).1 = stNE := by
  have h := claim10 stNE (cloud1 7)
  have hf : (getNewMap stNE (cloud1 7)).2.2 = false := h.1.mpr rfl
  exact ⟨hf, (h.2.1 hf).1, (h.2.1 hf).2⟩

/-- C6: `setMap` errors exactly when `computeProbDynamic` is enabled and the
supplied cloud lacks a `normals` descriptor (Mapper.cpp lines 352–355), and
the throw precedes every mutation, so on error the state — map, flag,
`isMapEmpty`, ICP reference — is exactly the prior state. -/
theorem claim6 {d : ℕ} (pr : Params) (s : MState d) (m : DataPoints d)
    (p : HT d) :
    ((setMap pr s m p).2.isSome ↔
      (pr.computeProbDynamic = true ∧ descriptorExists "normals" m = false)) ∧
    ((setMap pr s m p).2.isSome → (setMap pr s m p).1 = s) := by
  cases hcd : pr.computeProbDynamic && !descriptorExists "normals" m with
  | true =>
    have hc : pr.computeProbDynamic = true ∧ descriptorExists "normals" m = false := by
      simpa [Bool.and_eq_true, Bool.not_eq_true'] using hcd
    constructor
    · simp only [setMap, hcd, if_true]
      exact ⟨fun _ => hc, fun _ => rfl⟩
    · intro _
      simp only [setMap, hcd, if_true]
  | false =>
    have hc : ¬ (pr.computeProbDynamic = true ∧
        descriptorExists "normals" m = false) := by
      simpa [Bool.and_eq_true, Bool.not_eq_true'] using hcd
    constructor
    · simp only [setMap, hcd, Bool.false_eq_true, if_false]
      simpa using hc
    · intro hs
      exfalso
      simp only [setMap, hcd, Bool.false_eq_true, if_false] at hs
      simp at hs

/-- Witness for C6: with `computeProbDynamic` enabled and a normals-free
cloud, `setMap` errors and the state is untouched. -/
theorem claim6_witness :
    (setMap prDyn stNE (cloud1 5) (t1 0)).2.isSome ∧
    (setMap prDyn stNE (cloud1 5) (t1 0)).1 = stNE := by
  have h := claim6 prDyn stNE (cloud1 5) (t1 0)
  have hs : (setMap prDyn stNE (cloud1 5) (t1 0)).2.isSome := h.1.mpr ⟨rfl, rfl⟩
  exact ⟨hs, h.2 hs⟩

/-- C8: the per-matched-pair dynamic weight `w_d2` is ε when
`delta < epsilonD` or `‖m‖ > ‖r‖` (strict comparisons), otherwise
`ε + (1−ε)·offset/d_max` when `offset < d_max`, otherwise 1; and when the
occlusion gate `‖r‖ + εD + d_max ≥ ‖m‖` fails the map point's probability
is left unchanged. -/
theorem claim8 (pr : Params) (delta normR normM wV wD1 p : ℚ) :
    ((delta < pr.epsilonD ∨ normM > normR) →
      wD2 pr delta normR normM = dynEps) ∧
    (¬ (delta < pr.epsilonD ∨ normM > normR) →
      (delta - pr.epsilonD < pr.epsilonA * normR →
        wD2 pr delta normR normM =
          dynEps + (1 - dynEps) * (delta - pr.epsilonD) / (pr.epsilonA * normR)) ∧
      (¬ delta - pr.epsilonD < pr.epsilonA * normR →
        wD2 pr delta normR normM = 1)) ∧
    (¬ normR + pr.epsilonD + pr.epsilonA * normR ≥ normM →
      dynMatchUpdate pr delta normR normM wV wD1 p = p) := by
  refine ⟨fun h => by simp [wD2, h],
    fun h => ⟨fun h2 => by simp [wD2, h, h2], fun h2 => by simp [wD2, h, h2]⟩,
    fun hg => by simp [dynMatchUpdate, hg]⟩

/-- Witness for C8 at concrete scalars: `‖m‖ > ‖r‖` forces `w_d2 = ε`, and a
failed gate leaves the probability unchanged. -/
theorem claim8_witness :
    wD2 prBase 0 1 5 = dynEps ∧
    dynMatchUpdate prBase 0 1 5 1 1 (1 / 3) = 1 / 3 := by
  have h := claim8 prBase 0 1 5 1 1 (1 / 3)
  exact ⟨h.1 (by norm_num [prBase]), h.2.2 (by norm_num [prBase])⟩

/-- C4: the novelty filter's output features are exactly the input features
filtered by the retention test `nnKeep` — squared distance to the exact
nearest neighbour in the sensor-range-cropped map at least
`minDistNewPoint²` — so membership and original column order are preserved;
the output is a sublist of the input columns and every descriptor is
carried along, masked by the same column selection. -/
theorem claim4 {d : ℕ} (pr : Params) (currentInput currentMap : DataPoints d)
    (pose : HT d) :
    (retrievePointsFurtherThanMinDistNewPoint pr currentInput currentMap
        pose).features =
      currentInput.features.filter
        (nnKeep pr.minDistNewPoint
          (transformCloud pose (radiusFilterCloud pr.sensorMaxRange
            (transformCloud pose.inv currentMap))).features) ∧
    (retrievePointsFurtherThanMinDistNewPoint pr currentInput currentMap
        pose).features.Sublist currentInput.features ∧
    (retrievePointsFurtherThanMinDistNewPoint pr currentInput currentMap
        pose).descriptors.map Prod.fst =
      currentInput.descriptors.map Prod.fst ∧
    List.Forall₂ (fun a b => a.2.Sublist b.2)
      (retrievePointsFurtherThanMinDistNewPoint pr currentInput currentMap
        pose).descriptors currentInput.descriptors := by
  refine ⟨applyMask_map_filter _ _, applyMask_sublist _ _, ?_, ?_⟩
  · show (currentInput.descriptors.map _).map Prod.fst = _
    rw [List.map_map]
    rfl
  · exact forall2_map_self _ _ _ (fun x _ => applyMask_sublist _ _)

theorem setMap_fst_ok {d : ℕ} {pr : Params} {s : MState d} {m : DataPoints d}
    {p : HT d} (h : (setMap pr s m p).2 = none) :
    (setMap pr s m p).1 = { s with
      icpRef := transformCloud p
        (radiusFilterCloud pr.sensorMaxRange (transformCloud p.inv m))
      map := m
      newMapAvailable := true
      isMapEmpty := m.features.length == 0 } := by
  have hb : setMap pr s m p = ((setMap pr s m p).1, none) := by rw [← h]
  exact setMap_ok hb

theorem setMap_ok_cond {d : ℕ} {pr : Params} {s : MState d} {m : DataPoints d}
    {p : HT d} (h : (setMap pr s m p).2 = none) :
    (pr.computeProbDynamic && !descriptorExists "normals" m) = false := by
  cases hcd : pr.computeProbDynamic && !descriptorExists "normals" m with
  | false => rfl
  | true =>
    exfalso
    unfold setMap at h
    rw [if_pos hcd] at h
    simp at h

/-- C5: the claim puts every stored `probabilityDynamic` in [ε, 1−ε] for
every `priorDynamic` in [0, 1]; but `buildMap` seeds the descriptor with
`priorDynamic` itself, so `priorDynamic = 0` (admissible per spec §6) lands
outside [ε, 1−ε]. Amended: with the map-post-filter chain a no-op, after a
successful first-build `processInput` every point of the stored map carries
`probabilityDynamic` exactly `priorDynamic` — hence within [0, 1] for
`priorDynamic` in [0, 1], but not in general within [ε, 1−ε] — and the map
carries a `normals` descriptor. -/
theorem claim5_amended {d : ℕ} (pr : Params) (co : Collab d) (s : MState d)
    (input : DataPoints d) (pose : HT d) (t : ℚ)
    (hpd : pr.computeProbDynamic = true)
    (hp0 : 0 ≤ pr.priorDynamic) (hp1 : pr.priorDynamic ≤ 1)
    (hme : s.isMapEmpty = true) (hpost : ∀ c, co.mapPostFilters c = c)
    (herr : (processInput pr co s input pose t).error = none) :
    descriptorExists "normals" (processInput pr co s input pose t).state.map =
      true ∧
    (processInput pr co s input pose t).state.map.descriptors.lookup
        "probabilityDynamic" =
      some (List.replicate (icpInputCloud co input pose).features.length
        [pr.priorDynamic]) ∧
    ∀ col ∈ List.replicate (icpInputCloud co input pose).features.length
        [pr.priorDynamic], ∀ x ∈ col, 0 ≤ x ∧ x ≤ 1 := by
  rw [processInput_empty input pose t hme] at herr ⊢
  have herr2 : (buildMap pr co
      { s with sensorPose := pose, lastTimeMapWasUpdated := t,
               lastSensorPoseWhereMapWasUpdated := pose }
      (icpInputCloud co input pose) s.map pose).2 = none := herr
  have hb : buildMap pr co
      { s with sensorPose := pose, lastTimeMapWasUpdated := t,
               lastSensorPoseWhereMapWasUpdated := pose }
      (icpInputCloud co input pose) s.map pose =
    buildMapCommit pr co
      { s with sensorPose := pose, lastTimeMapWasUpdated := t,
               lastSensorPoseWhereMapWasUpdated := pose }
      (addDescriptor "probabilityDynamic"
        (List.replicate (icpInputCloud co input pose).features.length
          [pr.priorDynamic]) (icpInputCloud co input pose)) pose := by
    simp only [buildMap, hme, hpd, if_true]
  rw [hb] at herr2 ⊢
  have hc2 : buildMapCommit pr co
      { s with sensorPose := pose, lastTimeMapWasUpdated := t,
               lastSensorPoseWhereMapWasUpdated := pose }
      (addDescriptor "probabilityDynamic"
        (List.replicate (icpInputCloud co input pose).features.length
          [pr.priorDynamic]) (icpInputCloud co input pose)) pose =
    setMap pr
      { s with sensorPose := pose, lastTimeMapWasUpdated := t,
               lastSensorPoseWhereMapWasUpdated := pose }
      (transformCloud pose (co.mapPostFilters (transformCloud pose.inv
        (addDescriptor "probabilityDynamic"
          (List.replicate (icpInputCloud co input pose).features.length
            [pr.priorDynamic]) (icpInputCloud co input pose))))) pose := rfl
  rw [hc2] at herr2 ⊢
  rw [hpost] at herr2 ⊢
  have hcond := setMap_ok_cond herr2
  rw [hpd, Bool.true_and, Bool.not_eq_false'] at hcond
  rw [setMap_fst_ok herr2]
  refine ⟨hcond, ?_, ?_⟩
  · show (transformCloud pose (transformCloud pose.inv
        (addDescriptor "probabilityDynamic" _ _))).descriptors.lookup
        "probabilityDynamic" = _
    simp [transformCloud, addDescriptor, List.lookup]
  · intro col hcol x hx
    rw [List.eq_of_mem_replicate hcol] at hx
    rw [List.mem_singleton.mp hx]
    exact ⟨hp0, hp1⟩

/-- C5 is false as stated: with `computeProbDynamic` enabled and the
admissible prior `priorDynamic = 0`, a successful first build stores a map
whose only point carries `probabilityDynamic = 0`, which is below
ε = 1/10000, so the stored value is not in [ε, 1−ε]. -/
theorem claim5_counterexample :
    runDyn.error = none ∧
    runDyn.state.map.descriptors.lookup "probabilityDynamic" = some [[0]] ∧
    ¬ dynEps ≤ (0 : ℚ) := by
  refine ⟨by rw [runDyn_eval], ?_, by norm_num [dynEps]⟩
  rw [runDyn_eval]
  simp [stDyn, cloudNP, List.lookup]

/-- Witness for the amended C5 at the concrete dynamic run: the stored map
carries normals and a `probabilityDynamic` column equal to the prior. -/
theorem claim5_witness :
    descriptorExists "normals" runDyn.state.map = true ∧
    runDyn.state.map.descriptors.lookup "probabilityDynamic" =
      some (List.replicate
        (icpInputCloud coId (cloudN 5) (t1 0)).features.length
        [prDyn.priorDynamic]) := by
  have h := claim5_amended prDyn coId (initState 1) (cloudN 5) (t1 0) 0
    rfl (by norm_num [prDyn, prBase]) (by norm_num [prDyn, prBase]) rfl
    (fun c => rfl)
    (by rw [show processInput prDyn coId (initState 1) (cloudN 5) (t1 0) 0 =
        runDyn from rfl, runDyn_eval])
  exact ⟨h.1, h.2.1⟩

end NorlabMapper
